import Mathlib

/-!
Shallow embedding of the helper layer of a Nushell plugin wrapping the KCL
CLI (`src/helpers.rs`).  The three helpers shell out to external processes;
we model the process world as a function from a program name and an argument
list to the spawn result.  Byte streams (stdout/stderr of a child process)
are modelled as the strings their lossy UTF-8 decoding yields, which is how
the Rust code consumes them (`String::from_utf8_lossy`).
-/

/-- Result of a completed child process, as consumed by the Rust code:
`status.success()` (exit status zero), captured stdout, captured stderr. -/
structure ProcOutput where
  exitZero : Bool
  stdout : String
  stderr : String
deriving DecidableEq, Repr

/-- Result of `Command::output()`: either the process ran to completion
(`ok`), or it could not be launched at all (`err`, carrying the
io-error message). -/
inductive SpawnResult where
  | ok (output : ProcOutput)
  | err (msg : String)
deriving DecidableEq, Repr

/-- The process environment: what spawning a given program with a given
argument list returns.  Each helper is parametrised by it. -/
def Exec : Type := String → List String → SpawnResult

/-- Trailing-carriage-return stripping on a REVERSED character list, as
Rust's `lines()` applies to every `\n`-terminated segment. -/
def stripCRrev (cur : List Char) : List Char :=
  match cur with
  | '\r' :: rest => rest.reverse
  | _ => cur.reverse

/-- Worker for `rustLines`: `cur` holds the current (unterminated) segment
in reverse.  A segment terminated by `'\n'` is emitted with a trailing
`'\r'` stripped; a final unterminated segment is emitted as-is, and an
empty final segment is not emitted (terminator semantics). -/
def rustLinesAux : List Char → List Char → List String
  | [], cur => if cur.isEmpty then [] else [String.mk cur.reverse]
  | c :: cs, cur =>
    if c = '\n' then String.mk (stripCRrev cur) :: rustLinesAux cs []
    else rustLinesAux cs (c :: cur)

/-- Model of Rust's `str::lines()`: split at `'\n'`, strip a `'\r'` that
preceded a `'\n'`, no empty line for a trailing terminator. -/
def rustLines (s : String) : List String :=
  rustLinesAux s.data []

/-- Argument list built by `run_kcl_command` (src/helpers.rs lines 22-33):
`run`, the file, `--format`, the format, then `-D def` pairs, then
`-o output` when an output file was given. -/
def runArgs (file fmt : String) (output : Option String) (defines : List String) :
    List String :=
  let args := ["run", file, "--format", fmt]
  let args := defines.foldl (fun acc define => acc ++ ["-D", define]) args
  match output with
  | some output_file => args ++ ["-o", output_file]
  | none => args

/-- Embedding of `run_kcl_command` (src/helpers.rs lines 16-54). -/
def run_kcl_command (exec : Exec) (file fmt : String) (output : Option String)
    (defines : List String) : Except String String :=
  match exec "kcl" (runArgs file fmt output defines) with
  | SpawnResult.err e => Except.error ("Error executing kcl: " ++ e)
  | SpawnResult.ok output_res =>
    if output_res.exitZero then
      match output with
      | some output_file => Except.ok ("✅ " ++ output_file)
      | none => Except.ok ("✅ " ++ output_res.stdout)
    else
      Except.error ("❌: " ++ output_res.stderr)

/-- Embedding of `format_kcl_file` (src/helpers.rs lines 64-79). -/
def format_kcl_file (exec : Exec) (file : String) : Except String String :=
  match exec "kcl" ["fmt", file] with
  | SpawnResult.err e => Except.error ("Error executing kcl fmt: " ++ e)
  | SpawnResult.ok output =>
    if !output.exitZero then
      Except.error ("KCL format failed: " ++ output.stderr)
    else
      Except.ok ("✅ File formatted: " ++ file)

/-- Embedding of `validate_kcl_project` (src/helpers.rs lines 89-144).
The Rust loop pushes one line per file onto `results` and clears
`all_valid` on any failure; it is rendered as a left fold over the
discovered files with accumulator `(results, all_valid)`. -/
def validate_kcl_project (exec : Exec) (dir : String) : Except String String :=
  match exec "find" [dir, "-name", "*.k", "-type", "f"] with
  | SpawnResult.err e => Except.error ("Error finding KCL files: " ++ e)
  | SpawnResult.ok find_output =>
    let files := find_output.stdout
    let kcl_files := (rustLines files).filter (fun line => !line.isEmpty)
    if kcl_files.isEmpty then
      Except.ok ("No KCL files found in " ++ dir)
    else
      let acc := kcl_files.foldl
        (fun (acc : List String × Bool) file =>
          match exec "kcl" ["run", file, "--format", "yaml"] with
          | SpawnResult.ok output =>
            if output.exitZero then (acc.1 ++ ["✅ " ++ file], acc.2)
            else (acc.1 ++ ["❌ " ++ file ++ ": " ++ output.stderr], false)
          | SpawnResult.err e =>
            (acc.1 ++ ["❌ " ++ file ++ ": Execution error: " ++ e], false))
        ([], true)
      let summary :=
        if acc.2 then "✅ All " ++ toString kcl_files.length ++ " files are valid"
        else "❌ Errors found in some files"
      Except.ok (summary ++ "\n\n" ++ String.intercalate "\n" acc.1)

/-- The file list `validate_kcl_project` derives from the enumeration
output: the non-empty lines of the find stdout. -/
def nonEmptyLines (s : String) : List String :=
  (rustLines s).filter (fun line => !line.isEmpty)

/-- The single report line `validate_kcl_project` records for one file. -/
def fileLine (exec : Exec) (file : String) : String :=
  match exec "kcl" ["run", file, "--format", "yaml"] with
  | SpawnResult.ok output =>
    if output.exitZero then "✅ " ++ file
    else "❌ " ++ file ++ ": " ++ output.stderr
  | SpawnResult.err e => "❌ " ++ file ++ ": Execution error: " ++ e

/-- Whether the per-file invocation of one file counts as valid
(process launched and exited with status zero). -/
def fileOk (exec : Exec) (file : String) : Bool :=
  match exec "kcl" ["run", file, "--format", "yaml"] with
  | SpawnResult.ok output => output.exitZero
  | SpawnResult.err _ => false

/-- The validation loop, as a fold, appends one `fileLine` per file and
conjoins `fileOk` onto the running `all_valid` flag. -/
theorem validate_fold_spec (exec : Exec) (l : List String) (acc : List String × Bool) :
    l.foldl
      (fun (acc : List String × Bool) file =>
        match exec "kcl" ["run", file, "--format", "yaml"] with
        | SpawnResult.ok output =>
          if output.exitZero then (acc.1 ++ ["✅ " ++ file], acc.2)
          else (acc.1 ++ ["❌ " ++ file ++ ": " ++ output.stderr], false)
        | SpawnResult.err e =>
          (acc.1 ++ ["❌ " ++ file ++ ": Execution error: " ++ e], false)) acc
    = (acc.1 ++ l.map (fileLine exec), acc.2 && l.all (fileOk exec)) := by
  induction l generalizing acc with
  | nil => simp
  | cons f t ih =>
    simp only [List.foldl_cons, List.map_cons, List.all_cons]
    rw [ih]
    cases h : exec "kcl" ["run", f, "--format", "yaml"] with
    | ok output =>
      cases hz : output.exitZero <;>
        simp [fileLine, fileOk, h, hz, Bool.and_assoc]
    | err e => simp [fileLine, fileOk, h]

/-- When discovery succeeds and yields at least one non-empty line,
`validate_kcl_project` returns the summary header followed by one
outcome line per discovered file, in discovery order. -/
theorem validate_report (exec : Exec) (dir : String) (out : ProcOutput)
    (hfind : exec "find" [dir, "-name", "*.k", "-type", "f"] = SpawnResult.ok out)
    (hne : nonEmptyLines out.stdout ≠ []) :
    validate_kcl_project exec dir = Except.ok (
      (if (nonEmptyLines out.stdout).all (fileOk exec)
       then "✅ All " ++ toString (nonEmptyLines out.stdout).length ++ " files are valid"
       else "❌ Errors found in some files")
      ++ "\n\n"
      ++ String.intercalate "\n" ((nonEmptyLines out.stdout).map (fileLine exec))) := by
  have hne' : ((rustLines out.stdout).filter (fun line => !line.isEmpty)).isEmpty = false := by
    rw [List.isEmpty_eq_false]
    exact hne
  unfold validate_kcl_project
  rw [hfind]
  simp only [hne', Bool.false_eq_true, if_false, validate_fold_spec, List.nil_append,
    Bool.true_and]
  rfl

/-- When discovery succeeds but yields no non-empty line,
`validate_kcl_project` returns the zero-files success message. -/
theorem validate_no_files (exec : Exec) (dir : String) (out : ProcOutput)
    (hfind : exec "find" [dir, "-name", "*.k", "-type", "f"] = SpawnResult.ok out)
    (hempty : nonEmptyLines out.stdout = []) :
    validate_kcl_project exec dir = Except.ok ("No KCL files found in " ++ dir) := by
  have hempty' : ((rustLines out.stdout).filter (fun line => !line.isEmpty)).isEmpty = true := by
    rw [List.isEmpty_eq_true]
    exact hempty
  unfold validate_kcl_project
  rw [hfind]
  simp only [hempty', if_true]

/-- When the enumeration process cannot be launched,
`validate_kcl_project` propagates the launch error. -/
theorem validate_find_err (exec : Exec) (dir e : String)
    (hfind : exec "find" [dir, "-name", "*.k", "-type", "f"] = SpawnResult.err e) :
    validate_kcl_project exec dir = Except.error ("Error finding KCL files: " ++ e) := by
  unfold validate_kcl_project
  rw [hfind]

/-- The argument list as the spec writes it: subcommand, file, `--format`
and the format, then a `-D definition` pair per definition in list order,
then `-o path` when an output path is present. -/
def specRunArgs (file fmt : String) (output : Option String) (defines : List String) :
    List String :=
  ["run", file, "--format", fmt]
    ++ (defines.map (fun define => ["-D", define])).flatten
    ++ (match output with
        | some output_file => ["-o", output_file]
        | none => [])

/-- Folding `-D` pairs onto an argument list appends the flattened pairs. -/
theorem defines_fold_spec (defines args : List String) :
    defines.foldl (fun acc define => acc ++ ["-D", define]) args
      = args ++ (defines.map (fun define => ["-D", define])).flatten := by
  induction defines generalizing args with
  | nil => simp
  | cons d t ih => simp [ih, List.append_assoc]

/-- A `fileLine` of a file whose invocation succeeded is the success line. -/
theorem fileLine_of_fileOk (exec : Exec) (file : String)
    (h : fileOk exec file = true) : fileLine exec file = "✅ " ++ file := by
  unfold fileOk at h
  unfold fileLine
  cases hx : exec "kcl" ["run", file, "--format", "yaml"] with
  | ok output =>
    rw [hx] at h
    simp only [] at h
    simp [h]
  | err e =>
    rw [hx] at h
    simp at h

/-- Environment in which every spawn succeeds with exit status zero. -/
def execRunOk : Exec := fun _ _ => SpawnResult.ok ⟨true, "out-text", ""⟩

/-- Environment in which every spawn completes with nonzero exit status. -/
def execToolFail : Exec := fun _ _ => SpawnResult.ok ⟨false, "", "boom"⟩

/-- Environment in which no process can be launched. -/
def execLaunchFail : Exec := fun _ _ =>
  SpawnResult.err "No such file or directory (os error 2)"

/-- C6: `run_kcl_command` builds the external-tool argument list in exactly
the order the spec gives: subcommand, file, `--format` format, the `-D`
definition pairs in list order, then `-o` output path when supplied. -/
theorem runArgs_matches_spec (file fmt : String) (output : Option String)
    (defines : List String) :
    runArgs file fmt output defines = specRunArgs file fmt output defines := by
  unfold runArgs specRunArgs
  cases output <;> simp [defines_fold_spec, List.append_assoc]

/-- C4: on a zero exit status, `run_kcl_command` returns the success string
containing the output path when one was supplied (independent of the
captured stdout), and the success string wrapping captured stdout
otherwise. -/
theorem run_success_contract (exec : Exec) (file fmt : String)
    (output : Option String) (defines : List String) (o : ProcOutput)
    (hrun : exec "kcl" (runArgs file fmt output defines) = SpawnResult.ok o)
    (hzero : o.exitZero = true) :
    run_kcl_command exec file fmt output defines =
      Except.ok (match output with
        | some output_file => "✅ " ++ output_file
        | none => "✅ " ++ o.stdout) := by
  unfold run_kcl_command
  rw [hrun]
  cases output <;> simp [hzero]

/-- Witness for C4: a concrete environment exercising both the
with-output-path and the no-output-path branches. -/
theorem run_success_contract_witness :
    run_kcl_command execRunOk "main.k" "yaml" (some "out.yaml") [] =
      Except.ok "✅ out.yaml"
    ∧ run_kcl_command execRunOk "main.k" "yaml" none [] =
      Except.ok "✅ out-text" :=
  ⟨run_success_contract execRunOk "main.k" "yaml" (some "out.yaml") []
      ⟨true, "out-text", ""⟩ rfl rfl,
   run_success_contract execRunOk "main.k" "yaml" none []
      ⟨true, "out-text", ""⟩ rfl rfl⟩

/-- C5: on a nonzero exit status `run_kcl_command` fails carrying the
captured stderr; on a launch failure it fails carrying the launch error
message; in neither case is a success returned. -/
theorem run_failure_contract (exec : Exec) (file fmt : String)
    (output : Option String) (defines : List String) :
    (∀ o : ProcOutput,
       exec "kcl" (runArgs file fmt output defines) = SpawnResult.ok o →
       o.exitZero = false →
       run_kcl_command exec file fmt output defines =
         Except.error ("❌: " ++ o.stderr)
       ∧ ∀ s : String, run_kcl_command exec file fmt output defines ≠ Except.ok s)
    ∧ (∀ e : String,
       exec "kcl" (runArgs file fmt output defines) = SpawnResult.err e →
       run_kcl_command exec file fmt output defines =
         Except.error ("Error executing kcl: " ++ e)
       ∧ ∀ s : String, run_kcl_command exec file fmt output defines ≠ Except.ok s) := by
  constructor
  · intro o hrun hz
    have heq : run_kcl_command exec file fmt output defines =
        Except.error ("❌: " ++ o.stderr) := by
      unfold run_kcl_command
      rw [hrun]
      simp [hz]
    exact ⟨heq, fun s => by rw [heq]; simp⟩
  · intro e hrun
    have heq : run_kcl_command exec file fmt output defines =
        Except.error ("Error executing kcl: " ++ e) := by
      unfold run_kcl_command
      rw [hrun]
    exact ⟨heq, fun s => by rw [heq]; simp⟩

/-- Witness for C5: concrete environments exercising the nonzero-exit and
the launch-failure branches, on a nonexistent file path. -/
theorem run_failure_contract_witness :
    run_kcl_command execToolFail "nonexistent.k" "yaml" none [] =
      Except.error "❌: boom"
    ∧ run_kcl_command execLaunchFail "nonexistent.k" "yaml" none [] =
      Except.error "Error executing kcl: No such file or directory (os error 2)" :=
  ⟨((run_failure_contract execToolFail "nonexistent.k" "yaml" none []).1
      ⟨false, "", "boom"⟩ rfl rfl).1,
   ((run_failure_contract execLaunchFail "nonexistent.k" "yaml" none []).2
      "No such file or directory (os error 2)" rfl).1⟩

/-- C7: `format_kcl_file` depends only on the spawn of `kcl fmt file` with
no further flags; a zero exit yields the fixed confirmation naming the
file regardless of captured output, a nonzero exit yields a failure
carrying the captured stderr. -/
theorem format_contract (exec other : Exec) (file : String) :
    (exec "kcl" ["fmt", file] = other "kcl" ["fmt", file] →
       format_kcl_file exec file = format_kcl_file other file)
    ∧ (∀ o : ProcOutput,
       exec "kcl" ["fmt", file] = SpawnResult.ok o → o.exitZero = true →
       format_kcl_file exec file = Except.ok ("✅ File formatted: " ++ file))
    ∧ (∀ o : ProcOutput,
       exec "kcl" ["fmt", file] = SpawnResult.ok o → o.exitZero = false →
       format_kcl_file exec file = Except.error ("KCL format failed: " ++ o.stderr)) := by
  refine ⟨?_, ?_, ?_⟩
  · intro h
    unfold format_kcl_file
    rw [h]
  · intro o h hz
    unfold format_kcl_file
    rw [h]
    simp [hz]
  · intro o h hz
    unfold format_kcl_file
    rw [h]
    simp [hz]

/-- Witness for C7: the confirmation message ignores the tool's captured
stdout, and a nonzero exit carries stderr. -/
theorem format_contract_witness :
    format_kcl_file execRunOk "main.k" = Except.ok "✅ File formatted: main.k"
    ∧ format_kcl_file execToolFail "main.k" =
      Except.error "KCL format failed: boom" :=
  ⟨(format_contract execRunOk execRunOk "main.k").2.1
      ⟨true, "out-text", ""⟩ rfl rfl,
   (format_contract execToolFail execToolFail "main.k").2.2
      ⟨false, "", "boom"⟩ rfl rfl⟩

/-- Environment whose enumeration succeeds with empty stdout. -/
def execFindEmpty : Exec := fun _ _ => SpawnResult.ok ⟨true, "", ""⟩

/-- Environment whose enumeration process exits nonzero with empty stdout,
as `find` does on a nonexistent directory. -/
def execFindBadDir : Exec := fun prog _ =>
  if prog = "find" then
    SpawnResult.ok ⟨false, "", "find: missing: No such file or directory"⟩
  else SpawnResult.ok ⟨true, "", ""⟩

/-- Environment whose enumeration output consists only of empty lines. -/
def execFindBlankLines : Exec := fun prog _ =>
  if prog = "find" then SpawnResult.ok ⟨true, "\n\n", ""⟩
  else SpawnResult.ok ⟨true, "", ""⟩

/-- Environment discovering `a.k` and `b.k`, both of which validate. -/
def execTwoValid : Exec := fun prog _ =>
  if prog = "find" then SpawnResult.ok ⟨true, "a.k\nb.k\n", ""⟩
  else SpawnResult.ok ⟨true, "", ""⟩

/-- Environment discovering `a.k` and `b.k`, where `a.k` validates and
`b.k` fails with a semantic error. -/
def execMixed : Exec := fun prog args =>
  if prog = "find" then SpawnResult.ok ⟨true, "a.k\nb.k\n", ""⟩
  else if args = ["run", "a.k", "--format", "yaml"] then
    SpawnResult.ok ⟨true, "", ""⟩
  else SpawnResult.ok ⟨false, "", "semantic error"⟩

/-- Environment discovering three files exhibiting all three per-file
outcomes: success, nonzero exit, and launch failure. -/
def execThreeKinds : Exec := fun prog args =>
  if prog = "find" then SpawnResult.ok ⟨true, "a.k\nb.k\nc.k\n", ""⟩
  else if args = ["run", "a.k", "--format", "yaml"] then
    SpawnResult.ok ⟨true, "", ""⟩
  else if args = ["run", "b.k", "--format", "yaml"] then
    SpawnResult.ok ⟨false, "", "semantic error"⟩
  else SpawnResult.err "kcl: not found"

/-- C1 counterexample: when the enumeration step fails with the directory
nonexistent (`find` exits nonzero, empty stdout), `validate_kcl_project`
does NOT return a failure: it returns the zero-files success. -/
theorem validate_discovery_failure_counterexample :
    execFindBadDir "find" ["missing", "-name", "*.k", "-type", "f"] =
      SpawnResult.ok ⟨false, "", "find: missing: No such file or directory"⟩
    ∧ validate_kcl_project execFindBadDir "missing" =
      Except.ok "No KCL files found in missing" :=
  ⟨rfl, rfl⟩

/-- C1 (amended): when LAUNCHING the enumeration process fails,
`validate_kcl_project` propagates that failure immediately; the behavior
of the per-file tool is arbitrary here, so no per-file outcome is
involved.  (A nonzero exit status of the enumeration process itself is
not detected; see the counterexample.) -/
theorem validate_discovery_launch_abort (exec : Exec) (dir e : String)
    (hfind : exec "find" [dir, "-name", "*.k", "-type", "f"] = SpawnResult.err e) :
    validate_kcl_project exec dir =
      Except.error ("Error finding KCL files: " ++ e) :=
  validate_find_err exec dir e hfind

/-- Witness for the amended C1: an environment in which no process can be
launched at all. -/
theorem validate_discovery_launch_abort_witness :
    validate_kcl_project execLaunchFail "proj" =
      Except.error "Error finding KCL files: No such file or directory (os error 2)" :=
  validate_discovery_launch_abort execLaunchFail "proj"
    "No such file or directory (os error 2)" rfl

/-- C2: with discovery succeeding and at least one file found, the run is
reported with the errors header iff at least one file's invocation
failed, and the report carries exactly one outcome line per discovered
file, in discovery order (no early abort). -/
theorem validate_aggregation_contract (exec : Exec) (dir : String) (out : ProcOutput)
    (hfind : exec "find" [dir, "-name", "*.k", "-type", "f"] = SpawnResult.ok out)
    (hne : nonEmptyLines out.stdout ≠ []) :
    validate_kcl_project exec dir = Except.ok (
      (if (nonEmptyLines out.stdout).all (fileOk exec)
       then "✅ All " ++ toString (nonEmptyLines out.stdout).length ++ " files are valid"
       else "❌ Errors found in some files")
      ++ "\n\n"
      ++ String.intercalate "\n" ((nonEmptyLines out.stdout).map (fileLine exec)))
    ∧ ((nonEmptyLines out.stdout).all (fileOk exec) = false ↔
        ∃ file ∈ nonEmptyLines out.stdout, fileOk exec file = false)
    ∧ ((nonEmptyLines out.stdout).map (fileLine exec)).length
        = (nonEmptyLines out.stdout).length := by
  refine ⟨validate_report exec dir out hfind hne, ?_, by simp⟩
  constructor
  · intro hall
    by_contra hno
    push_neg at hno
    have hT : (nonEmptyLines out.stdout).all (fileOk exec) = true := by
      rw [List.all_eq_true]
      intro x hx
      have hne2 := hno x hx
      cases hfo : fileOk exec x with
      | false => exact absurd hfo hne2
      | true => rfl
    rw [hT] at hall
    cases hall
  · rintro ⟨f, hf, hfo⟩
    cases hall : (nonEmptyLines out.stdout).all (fileOk exec) with
    | false => rfl
    | true =>
      rw [List.all_eq_true] at hall
      have := hall f hf
      rw [hfo] at this
      cases this

/-- Witness for C2: a mixed environment producing the errors header, one
success line and one failure line in discovery order. -/
theorem validate_aggregation_contract_witness :
    execMixed "find" ["proj", "-name", "*.k", "-type", "f"] =
      SpawnResult.ok ⟨true, "a.k\nb.k\n", ""⟩
    ∧ validate_kcl_project execMixed "proj" =
      Except.ok "❌ Errors found in some files\n\n✅ a.k\n❌ b.k: semantic error" := by
  refine ⟨rfl, ?_⟩
  have h := (validate_aggregation_contract execMixed "proj"
      ⟨true, "a.k\nb.k\n", ""⟩ rfl (by decide)).1
  rw [h]
  rfl

/-- C3: when discovery yields at least one file and every file's
invocation exits with status zero, validate succeeds with the
all-N-files-valid header and exactly one success line per file, in
discovery order. -/
theorem validate_all_valid_contract (exec : Exec) (dir : String) (out : ProcOutput)
    (hfind : exec "find" [dir, "-name", "*.k", "-type", "f"] = SpawnResult.ok out)
    (hne : nonEmptyLines out.stdout ≠ [])
    (hall : ∀ file ∈ nonEmptyLines out.stdout, fileOk exec file = true) :
    validate_kcl_project exec dir = Except.ok (
      "✅ All " ++ toString (nonEmptyLines out.stdout).length ++ " files are valid"
      ++ "\n\n"
      ++ String.intercalate "\n"
          ((nonEmptyLines out.stdout).map (fun file => "✅ " ++ file))) := by
  have hallb : (nonEmptyLines out.stdout).all (fileOk exec) = true := by
    rw [List.all_eq_true]
    exact hall
  have hmap : (nonEmptyLines out.stdout).map (fileLine exec)
      = (nonEmptyLines out.stdout).map (fun file => "✅ " ++ file) :=
    List.map_congr_left (fun f hf => fileLine_of_fileOk exec f (hall f hf))
  rw [validate_report exec dir out hfind hne, hallb, hmap]
  simp

/-- Witness for C3: two discovered files, both valid. -/
theorem validate_all_valid_contract_witness :
    validate_kcl_project execTwoValid "proj" =
      Except.ok "✅ All 2 files are valid\n\n✅ a.k\n✅ b.k" := by
  have h := validate_all_valid_contract execTwoValid "proj"
      ⟨true, "a.k\nb.k\n", ""⟩ rfl (by decide) (by decide)
  rw [h]
  rfl

/-- C8: when enumeration succeeds and yields zero matching files,
validate returns a success stating no files were found, never an
error. -/
theorem validate_zero_files_contract (exec : Exec) (dir : String) (out : ProcOutput)
    (hfind : exec "find" [dir, "-name", "*.k", "-type", "f"] = SpawnResult.ok out)
    (hempty : nonEmptyLines out.stdout = []) :
    validate_kcl_project exec dir = Except.ok ("No KCL files found in " ++ dir)
    ∧ ∀ e : String, validate_kcl_project exec dir ≠ Except.error e := by
  have h := validate_no_files exec dir out hfind hempty
  exact ⟨h, fun e => by rw [h]; simp⟩

/-- Witness for C8: enumeration succeeds with empty stdout. -/
theorem validate_zero_files_contract_witness :
    validate_kcl_project execFindEmpty "proj" =
      Except.ok "No KCL files found in proj" :=
  (validate_zero_files_contract execFindEmpty "proj" ⟨true, "", ""⟩ rfl rfl).1

/-- C9: the report carries one `fileLine` per discovered file, and that
line is the success marker on zero exit, the failure marker carrying
stderr on nonzero exit, and the failure marker with the distinct
"Execution error" detail when the process could not be launched. -/
theorem validate_per_file_outcome (exec : Exec) (dir : String) (out o : ProcOutput)
    (e file : String)
    (hfind : exec "find" [dir, "-name", "*.k", "-type", "f"] = SpawnResult.ok out)
    (hne : nonEmptyLines out.stdout ≠ []) :
    validate_kcl_project exec dir = Except.ok (
      (if (nonEmptyLines out.stdout).all (fileOk exec)
       then "✅ All " ++ toString (nonEmptyLines out.stdout).length ++ " files are valid"
       else "❌ Errors found in some files")
      ++ "\n\n"
      ++ String.intercalate "\n" ((nonEmptyLines out.stdout).map (fileLine exec)))
    ∧ (exec "kcl" ["run", file, "--format", "yaml"] = SpawnResult.ok o →
        o.exitZero = true → fileLine exec file = "✅ " ++ file)
    ∧ (exec "kcl" ["run", file, "--format", "yaml"] = SpawnResult.ok o →
        o.exitZero = false →
        fileLine exec file = "❌ " ++ file ++ ": " ++ o.stderr)
    ∧ (exec "kcl" ["run", file, "--format", "yaml"] = SpawnResult.err e →
        fileLine exec file = "❌ " ++ file ++ ": Execution error: " ++ e) := by
  refine ⟨validate_report exec dir out hfind hne, ?_, ?_, ?_⟩
  · intro h hz
    unfold fileLine
    rw [h]
    simp [hz]
  · intro h hz
    unfold fileLine
    rw [h]
    simp [hz]
  · intro h
    unfold fileLine
    rw [h]

/-- Witness for C9: three discovered files exhibiting success, nonzero
exit, and launch failure, each with its own report line. -/
theorem validate_per_file_outcome_witness :
    validate_kcl_project execThreeKinds "proj" =
      Except.ok
        "❌ Errors found in some files\n\n✅ a.k\n❌ b.k: semantic error\n❌ c.k: Execution error: kcl: not found"
    ∧ fileLine execThreeKinds "c.k" =
      "❌ c.k: Execution error: kcl: not found" := by
  have h := validate_per_file_outcome execThreeKinds "proj"
      ⟨true, "a.k\nb.k\nc.k\n", ""⟩ ⟨false, "", "semantic error"⟩
      "kcl: not found" "c.k" rfl (by decide)
  refine ⟨?_, h.2.2.2 rfl⟩
  rw [h.1]
  rfl

/-- C10: empty lines of the enumeration output are filtered out before
counting: validate's file list is exactly the non-empty lines, the
report carries one line per non-empty line, and an output of only empty
lines is reported as zero files found. -/
theorem validate_nonempty_lines_contract (exec : Exec) (dir : String) (out : ProcOutput)
    (hfind : exec "find" [dir, "-name", "*.k", "-type", "f"] = SpawnResult.ok out) :
    nonEmptyLines out.stdout
      = (rustLines out.stdout).filter (fun line => !line.isEmpty)
    ∧ (nonEmptyLines out.stdout = [] →
        validate_kcl_project exec dir = Except.ok ("No KCL files found in " ++ dir))
    ∧ (nonEmptyLines out.stdout ≠ [] →
        ∃ header : String,
          validate_kcl_project exec dir = Except.ok (header ++ "\n\n"
            ++ String.intercalate "\n"
                ((nonEmptyLines out.stdout).map (fileLine exec)))
          ∧ ((nonEmptyLines out.stdout).map (fileLine exec)).length
              = (nonEmptyLines out.stdout).length) := by
  refine ⟨rfl, fun hempty => validate_no_files exec dir out hfind hempty,
    fun hne => ⟨_, validate_report exec dir out hfind hne, by simp⟩⟩

/-- Witness for C10: an enumeration output consisting only of empty lines
is reported as zero files found. -/
theorem validate_nonempty_lines_contract_witness :
    validate_kcl_project execFindBlankLines "proj" =
      Except.ok "No KCL files found in proj" := by
  have h := validate_nonempty_lines_contract execFindBlankLines "proj"
      ⟨true, "\n\n", ""⟩ rfl
  rw [h.2.1 (by decide)]
  rfl
